import Mathlib

/-!
Verification of the isdnews collection-and-enrichment orchestrator.

The Lean definitions below are a shallow embedding of the Python source:
  - collector/models.py   (Source, Article, FetchLog, AILog, JobConfig)
  - collector/fetchers.py (RSSFetcher.fetch, call_openrouter_ai,
                           fetch_article_detail, DataCollector)
  - collector/tasks.py    (scheduled_collection, process_openrouter_job,
                           update_article_and_config_sync)

External effects (HTTP responses, raised exceptions, per-article database
failures) are passed in as explicit parameters; database tables are lists of
rows; wall-clock times are integers (epoch seconds).  Fields that no claim
touches (execution_time, fetched_at timestamps) are elided and noted in the
doc comment of the corresponding structure.
-/

namespace ISDNews

/-- A row of collector.models.Source.  `type` is one of "rss" / "api" /
"static"; `teamCode` is the owning team's code (the foreign key is non-null
in the model); `fetchInterval` is in seconds, `lastFetched` is an epoch
second or NULL. -/
structure Source where
  id : Nat
  url : String
  type : String
  teamCode : String
  isActive : Bool
  fetchInterval : Int
  lastFetched : Option Int
  forceCollect : Bool
deriving DecidableEq

/-- A candidate item produced by a fetcher (`article_data` dict in
fetchers.py): title, link URL, parsed publication time, summary. -/
structure Candidate where
  title : String
  url : String
  publishedAt : Int
  summary : String
deriving DecidableEq

/-- A row of collector.models.Article.  Field order follows the model;
`created_at` is elided (no claim touches it). -/
structure Article where
  title : String
  url : String
  sourceId : Nat
  publishedAt : Int
  summary : String
  content : String
  thumbnail : String
  isAiProcessed : Bool
  aiType : String
  aiContent : String
deriving DecidableEq

/-- A row of collector.models.FetchLog.  `execution_time` and `fetched_at`
are elided (wall-clock durations are not modelled). -/
structure FetchLogRow where
  sourceId : Nat
  status : String
  articlesCount : Nat
  errorMessage : String
deriving DecidableEq

/-! ## Scheduling predicates (claim C5)

`DataCollector.collect_all_active_sources` (fetchers.py:527-531) filters the
active sources with
  Q(force_collect=True) | Q(last_fetched__isnull=True)
    | Q(last_fetched__lte=now - F('fetch_interval') * timedelta(seconds=1)).

`scheduled_collection` (tasks.py:94-97) instead filters with the raw SQL
  last_fetched IS NULL OR (EXTRACT(EPOCH FROM now)
      - EXTRACT(EPOCH FROM last_fetched)) >= fetch_interval
which has no force_collect disjunct. -/

/-- The due filter of `DataCollector.collect_all_active_sources`
(fetchers.py:527-531).  An SQL comparison against a NULL `last_fetched` is
false, hence the `none => false` branch of the third disjunct. -/
def dueOrchestrator (now : Int) (s : Source) : Bool :=
  s.forceCollect || s.lastFetched.isNone ||
    (match s.lastFetched with
     | none => false
     | some lf => decide (lf ≤ now - s.fetchInterval))

/-- The due filter of the `scheduled_collection` task (tasks.py:94-97):
last_fetched IS NULL, or now - last_fetched >= fetch_interval.  There is no
force_collect disjunct in this filter. -/
def dueScheduled (now : Int) (s : Source) : Bool :=
  match s.lastFetched with
  | none => true
  | some lf => decide (now - lf ≥ s.fetchInterval)

/-- Restatement of the spec's wording of `dueSources(now)` (spec §6.6/§8):
the source is due iff forceCollect is true, or lastFetched is null, or
now - lastFetched >= fetchInterval.  Used only to compare the code's two
filters against the claim. -/
def dueSpec (now : Int) (s : Source) : Bool :=
  s.forceCollect || s.lastFetched.isNone ||
    (match s.lastFetched with
     | none => false
     | some lf => decide (now - lf ≥ s.fetchInterval))

/-! ## RSS fetcher (claim C8)

`RSSFetcher.fetch` (fetchers.py:96-119): a network/parse exception is
logged and re-raised; a 200 response is parsed into candidate items; a
non-200 response falls through and returns the (empty) accumulator.  The
network outcome is a parameter: `Except.error e` models a raised exception
with text `e`, `Except.ok (status, entries)` a completed HTTP exchange whose
body parsed into `entries`.  `parse_date` is total (ISO-8601, then RFC-822,
then current time) and never raises, so entries carry their already-parsed
publication time. -/

/-- One entry of the parsed feed, with `published` already run through the
total `parse_date` helper. -/
structure RssEntry where
  title : String
  link : String
  publishedAt : Int
  summary : String
deriving DecidableEq

/-- Shallow embedding of `RSSFetcher.fetch`: an exception propagates
unchanged (the except block re-raises); a 200 response maps each entry to a
candidate; any other status returns the empty list. -/
def rssFetch (net : Except String (Nat × List RssEntry)) :
    Except String (List Candidate) :=
  match net with
  | .error e => .error e
  | .ok (status, entries) =>
      if status = 200 then
        .ok (entries.map (fun it => ⟨it.title, it.link, it.publishedAt, it.summary⟩))
      else
        .ok []

/-! ## DataCollector.collect_from_source (claims C1, C4, C8, C10)

fetchers.py:455-517.  The fetch outcome and the per-article save failures
are parameters: `fails i = true` models `create_article` raising on the
i-th element of `new_articles` (the exception is caught and the loop
continues).  The run produces exactly one FetchLog (the `finally` block's
single `create_fetch_log` call) and returns the article table and the
source's `last_fetched` value after the run. -/

/-- Bool test for URL presence in the article table. -/
def urlIn (db : List Article) (u : String) : Bool :=
  db.any (fun a => a.url == u)

/-- The Article row created for a candidate, with the empty enrichment
defaults of fetchers.py:476-489. -/
def mkArticle (src : Source) (c : Candidate) : Article :=
  ⟨c.title, c.url, src.id, c.publishedAt, c.summary, "", "", false, "", ""⟩

/-- `Article.objects.get_or_create(url=..., defaults=...)`: insert the row
only when no row with that URL exists. -/
def getOrCreate (src : Source) (db : List Article) (c : Candidate) : List Article :=
  if urlIn db c.url then db else db ++ [mkArticle src c]

/-- The per-article save loop of fetchers.py:474-494: a save that raises is
swallowed and the loop continues; `saved_count` is incremented after each
non-raising `get_or_create` (whether or not it created a row). -/
def saveLoop (src : Source) (fails : Nat → Bool) :
    List Candidate → Nat → List Article → Nat → List Article × Nat
  | [], _, db, n => (db, n)
  | c :: cs, i, db, n =>
      if fails i then saveLoop src fails cs (i + 1) db n
      else saveLoop src fails cs (i + 1) (getOrCreate src db c) (n + 1)

/-- Result of one `collect_from_source` run: the article table afterwards,
the FetchLog rows created during the run, and the source's `last_fetched`
value afterwards. -/
structure CollectResult where
  db : List Article
  logs : List FetchLogRow
  sourceLastFetched : Option Int
deriving DecidableEq

/-- Shallow embedding of `DataCollector.collect_from_source`
(fetchers.py:455-517).  `log_data` starts as status "error" / count 0; on a
fetch exception the except block stores the exception text and the finally
block writes the single FetchLog — `source.last_fetched` is NOT touched on
this path, because its update (fetchers.py:497-498) sits inside the try
block after the save loop.  On a successful fetch: candidates whose URL is
already persisted are filtered out (via the `existing_urls` set restricted
to the candidate URLs), the rest truncated to 5, saved one by one with
per-article exception swallowing, then `last_fetched := now` and the single
FetchLog row with status "success" and the save counter. -/
def collectFromSource (src : Source) (fetched : Except String (List Candidate))
    (fails : Nat → Bool) (db : List Article) (now : Int) : CollectResult :=
  match fetched with
  | .error e => ⟨db, [⟨src.id, "error", 0, e⟩], src.lastFetched⟩
  | .ok articlesData =>
      let existingUrls :=
        (db.map (fun a => a.url)).filter
          (fun u => (articlesData.map (fun a => a.url)).contains u)
      let newArticles :=
        (articlesData.filter (fun a => !(existingUrls.contains a.url))).take 5
      let saved := saveLoop src fails newArticles 0 db 0
      ⟨saved.1, [⟨src.id, "success", saved.2, ""⟩], some now⟩

/-! ## call_openrouter_ai (claims C3, C7)

fetchers.py:235-353.  The environment of one call — configured API key,
HTTP status, response body text, the repr of the parsed JSON, and the
extracted `choices[0].message.content` — is a parameter.  Note that the
"API key not found" raise (fetchers.py:239-241) happens BEFORE the try
block: it propagates to the caller and no AILog row is written. -/

/-- A row of collector.models.AILog (`created_at` elided). -/
structure AILogRow where
  url : String
  prompt : String
  response : String
  result : String
  status : String
  errorMessage : String
deriving DecidableEq

/-- Environment of one OpenRouter call.  `errorBody` is `resp.text()` for a
non-200 response (also what the exception handler re-reads into
`error_response`); `dataRepr` is `str(data)` for the parsed 200 body;
`aiMessage` is `choices[0].message.content`, where the empty string covers
an absent or empty `choices` list, an absent `content` key and an empty
content string — all falsy in the source's truthiness test at
fetchers.py:288, and all taking the no-content path. -/
structure AIEnv where
  apiKey : String
  httpStatus : Nat
  errorBody : String
  dataRepr : String
  aiMessage : String
deriving DecidableEq

/-- Python `str.strip()` whitespace test (ASCII whitespace set). -/
def isPySpace (c : Char) : Bool :=
  c == ' ' || c == '\t' || c == '\n' || c == '\r' || c == '\x0b' || c == '\x0c'

/-- Python `str.strip()` on a character list: drop whitespace from both
ends. -/
def pythonStripChars (s : List Char) : List Char :=
  ((s.dropWhile isPySpace).reverse.dropWhile isPySpace).reverse

/-- Python `str.strip()` on a `String`. -/
def pyStrip (s : String) : String :=
  ⟨pythonStripChars s.data⟩

/-- The exact user prompt built at fetchers.py:259 (the f-string with `url`
and `content` interpolated). -/
def userPrompt (url content : String) : String :=
  "Dưới đây là nội dung thô tôi cào từ trang web, Hãy phân tích và đưa ra ý kiến về nội dung này và nói lại cho tôi một cách dễ hiểu bằng tiếng việt,ví dụ nếu có, nhớ đặt tiêu đề và kết luận (có dẫn nguồn từ "
    ++ url
    ++ ") cho câu trả lời của bạn (tôi yêu cầu nếu nội dung tôi gửi cho bạn mà trống thì hãy gửi lại cho tôi với nội dung, Tôi không thể phân tích nội dung từ nguồn: "
    ++ url
    ++ ", cái này bắt buộc): "
    ++ content

/-- Outcome of one `call_openrouter_ai` invocation: `outcome` is
`Except.error e` when the function raises with text `e`, `Except.ok s` when
it returns `s`; `logs` is the list of AILog rows created during the call. -/
structure AIResult where
  outcome : Except String String
  logs : List AILogRow

/-- Shallow embedding of `call_openrouter_ai` (fetchers.py:235-353).
Branches, in source order: missing API key raises before the try block (no
AILog); a non-200 status raises inside the try, the handler writes one
error AILog (prompt, re-read response text, result = original content) and
returns the original content; a 200 response with truthy message content
writes one success AILog with the stripped result and returns it; a 200
response without message content writes one "No content from AI" error
AILog and returns the original content.  The Teams notification after the
success log swallows its own errors and does not affect the result. -/
def callOpenrouterAI (env : AIEnv) (content url aiType : String) : AIResult :=
  if env.apiKey = "" then
    ⟨.error "OpenRouter API key not found in configuration", []⟩
  else
    let prompt := userPrompt url content
    if env.httpStatus ≠ 200 then
      let exnText := "OpenRouter API error: " ++ toString env.httpStatus
        ++ " - " ++ env.errorBody
      ⟨.ok content, [⟨url, prompt, env.errorBody, content, "error", exnText⟩]⟩
    else
      if env.aiMessage ≠ "" then
        let result := pyStrip env.aiMessage
        ⟨.ok result, [⟨url, prompt, env.dataRepr, result, "success", ""⟩]⟩
      else
        ⟨.ok content,
         [⟨url, prompt, env.dataRepr, content, "error", "No content from AI"⟩]⟩

/-! ## fetch_article_detail extraction core (claim C6)

fetchers.py:407-422.  After rendering, the function concatenates
`f"{title}\n\n{meta}\n\n"` with the newline-joined paragraph texts,
truncates to 4000 characters, and returns the empty result when the
stripped truncation is shorter than 300 characters; otherwise the AI
summary of the truncated text and the chosen thumbnail.  Rendering and
thumbnail choice are parameters (`ai`, `thumb`). -/

/-- Result of `fetch_article_detail`: content and thumbnail. -/
structure DetailResult where
  content : List Char
  thumbnail : List Char
deriving DecidableEq

/-- The concatenated raw text of fetchers.py:414 before truncation:
title, blank line, meta description, blank line, paragraphs joined by
newlines. -/
def concatText (title meta : List Char) (paras : List (List Char)) : List Char :=
  title ++ ['\n', '\n'] ++ meta ++ ['\n', '\n'] ++ List.intercalate ['\n'] paras

/-- Shallow embedding of the extraction core of `fetch_article_detail`
(fetchers.py:407-445): truncate the concatenated text to 4000 characters;
if the stripped truncation has fewer than 300 characters return the empty
result, else return the AI summary of the truncated text and the
thumbnail. -/
def extractDetail (title meta : List Char) (paras : List (List Char))
    (ai : List Char → List Char) (thumb : List Char) : DetailResult :=
  let raw := (concatText title meta paras).take 4000
  if (pythonStripChars raw).length < 300 then ⟨[], []⟩
  else ⟨ai raw, thumb⟩

/-! ## process_openrouter_job team selection (claim C2)

tasks.py:141-223.  The task loads the single 'openrouter' JobConfig, bails
out when absent or disabled, picks the OLDEST article with
`is_ai_processed=False` ordered by `published_at` (no team rotation of any
kind), uses that article's source's team code, and at the end marks the
article processed and overwrites `JobConfig.last_type_sent` with that team
code.  `JobConfig.round_robin_types` and the previous `last_type_sent`
value are never read by the selection. -/

/-- A row of collector.models.JobConfig for job_type 'openrouter'
(`limit` elided — never read by the task). -/
structure JobCfg where
  enabled : Bool
  roundRobinTypes : List String
  lastTypeSent : String
deriving DecidableEq

/-- The slice of an Article row that the openrouter job reads: primary key,
publication time, processed flag, and the source's team code (Source.team
is a non-null foreign key). -/
structure ArtRow where
  id : Nat
  publishedAt : Int
  isAiProcessed : Bool
  teamCode : String
deriving DecidableEq

/-- First row of the list ordered by `published_at` ascending: the minimum
by publication time, earliest list position winning ties. -/
def pickOldest : List ArtRow → Option ArtRow
  | [] => none
  | a :: rest =>
      match pickOldest rest with
      | none => some a
      | some b => if b.publishedAt < a.publishedAt then some b else some a

/-- `Article.objects.filter(is_ai_processed=False).order_by('published_at').first()`
(tasks.py:152-155, without the optional team_code narrowing). -/
def nextUnprocessed (arts : List ArtRow) : Option ArtRow :=
  pickOldest (arts.filter (fun a => !a.isAiProcessed))

/-- Shallow embedding of one `process_openrouter_job` cycle
(tasks.py:141-223), returning the JobConfig row, the article table, and the
team code the cycle dispatched to (`none` when no work was done).  The AI
call, webhook send and their logging are modelled elsewhere
(`callOpenrouterAI`); here only the selection and the final persist
matter. -/
def processOpenrouterJob (cfg? : Option JobCfg) (arts : List ArtRow) :
    Option JobCfg × List ArtRow × Option String :=
  match cfg? with
  | none => (none, arts, none)
  | some cfg =>
      if cfg.enabled = false then (some cfg, arts, none)
      else
        match nextUnprocessed arts with
        | none => (some cfg, arts, none)
        | some a =>
            (some { cfg with lastTypeSent := a.teamCode },
             arts.map (fun b => if b.id == a.id then { b with isAiProcessed := true } else b),
             some a.teamCode)

/-! ## update_article_and_config_sync (claim C9)

tasks.py:123-138 and the inline copy at tasks.py:202-216.  One
`transaction.atomic()` block: select-for-update the article, set
ai_content / is_ai_processed / ai_type, save; select-for-update the
JobConfig, set last_type_sent, save.  A raise anywhere inside the block
(either row missing, or a save failing) rolls the whole block back and the
function reports failure — so either both rows are written or neither
is. -/

/-- The slice of an Article row the enrichment persist writes. -/
structure Art9 where
  id : Nat
  aiContent : String
  isAiProcessed : Bool
  aiType : String
deriving DecidableEq

/-- The slice of a JobConfig row the enrichment persist writes. -/
structure Cfg9 where
  id : Nat
  lastTypeSent : String
deriving DecidableEq

/-- The two tables touched by the enrichment persist step. -/
structure DB9 where
  arts : List Art9
  cfgs : List Cfg9
deriving DecidableEq

/-- Shallow embedding of `update_article_and_config_sync` /
tasks.py:202-216: inside one transaction, load the article row by id
(DoesNotExist raises), write its enrichment fields, load the config row by
id, write the cursor.  A raise rolls back every write of the block, so the
failure branch returns the database unchanged with result `false`. -/
def updateArticleAndConfig (db : DB9) (aid : Nat) (c ty : String) (cid : Nat) :
    Bool × DB9 :=
  match db.arts.find? (fun a => a.id == aid), db.cfgs.find? (fun g => g.id == cid) with
  | some _, some _ =>
      (true,
       ⟨db.arts.map (fun a =>
          if a.id == aid then { a with aiContent := c, isAiProcessed := true, aiType := ty } else a),
        db.cfgs.map (fun g =>
          if g.id == cid then { g with lastTypeSent := ty } else g)⟩)
  | _, _ => (false, db)

/-! ## Helper lemmas -/

/-- URL presence distributes over table append. -/
lemma urlIn_append (db ex : List Article) (u : String) :
    urlIn (db ++ ex) u = (urlIn db u || urlIn ex u) := by
  simp [urlIn, List.any_append]

/-- Stripping never lengthens a string. -/
lemma length_pythonStripChars_le (s : List Char) :
    (pythonStripChars s).length ≤ s.length := by
  unfold pythonStripChars
  have h1 : ∀ (l : List Char), (l.dropWhile isPySpace).length ≤ l.length := by
    intro l
    induction l with
    | nil => simp
    | cons a l ih =>
        by_cases h : isPySpace a <;> simp [List.dropWhile, h] <;> omega
  calc ((((s.dropWhile isPySpace).reverse).dropWhile isPySpace).reverse).length
      = (((s.dropWhile isPySpace).reverse).dropWhile isPySpace).length := by
        simp
    _ ≤ ((s.dropWhile isPySpace).reverse).length := h1 _
    _ = (s.dropWhile isPySpace).length := by simp
    _ ≤ s.length := h1 s

/-- For a candidate of the run, membership in the `existing_urls` set of
fetchers.py:470 is the same as URL presence in the article table. -/
lemma contains_existing (db : List Article) (cands : List Candidate)
    (a : Candidate) (ha : a ∈ cands) :
    ((db.map (fun x => x.url)).filter
        (fun u => (cands.map (fun x => x.url)).contains u)).contains a.url
      = urlIn db a.url := by
  have hmem : a.url ∈ cands.map (fun x => x.url) :=
    List.mem_map_of_mem _ ha
  rw [Bool.eq_iff_iff]
  simp only [List.elem_eq_mem, decide_eq_true_eq, List.mem_filter, urlIn,
    List.any_eq_true, beq_iff_eq, List.mem_map]
  constructor
  · rintro ⟨⟨x, hx, hxu⟩, _⟩
    exact ⟨x, hx, hxu⟩
  · rintro ⟨x, hx, hxu⟩
    refine ⟨⟨x, hx, hxu⟩, ?_⟩
    simpa [List.elem_eq_mem, decide_eq_true_eq] using hmem

/-- The dedup filter of fetchers.py:471, rewritten through
`contains_existing`: keep exactly the candidates whose URL is absent from
the article table. -/
lemma filterNew_eq (db : List Article) (cands : List Candidate) :
    cands.filter (fun a =>
        !(((db.map (fun x => x.url)).filter
            (fun u => (cands.map (fun x => x.url)).contains u)).contains a.url))
      = cands.filter (fun a => !(urlIn db a.url)) := by
  apply List.filter_congr
  intro a ha
  rw [contains_existing db cands a ha]

/-- Shape of the save loop's output: the table only grows, each appended
row is the default Article of some processed candidate, and its URL was not
present when the run started. -/
lemma saveLoop_spec (src : Source) (fails : Nat → Bool) :
    ∀ (cs : List Candidate) (i : Nat) (db : List Article) (n : Nat),
    ∃ extra, (saveLoop src fails cs i db n).1 = db ++ extra ∧
      extra.length ≤ cs.length ∧
      ∀ a ∈ extra, (∃ c, c ∈ cs ∧ a = mkArticle src c) ∧ urlIn db a.url = false := by
  intro cs
  induction cs with
  | nil =>
      intro i db n
      exact ⟨[], by simp [saveLoop], by simp, by simp⟩
  | cons c cs ih =>
      intro i db n
      by_cases hf : fails i
      · obtain ⟨extra, h1, h2, h3⟩ := ih (i + 1) db n
        refine ⟨extra, ?_, ?_, ?_⟩
        · simpa [saveLoop, hf] using h1
        · exact Nat.le_succ_of_le h2
        · intro a ha
          obtain ⟨⟨c', hc', hac'⟩, hurl⟩ := h3 a ha
          exact ⟨⟨c', List.mem_cons_of_mem _ hc', hac'⟩, hurl⟩
      · by_cases hu : urlIn db c.url
        · obtain ⟨extra, h1, h2, h3⟩ := ih (i + 1) db (n + 1)
          refine ⟨extra, ?_, ?_, ?_⟩
          · simpa [saveLoop, hf, getOrCreate, hu] using h1
          · exact Nat.le_succ_of_le h2
          · intro a ha
            obtain ⟨⟨c', hc', hac'⟩, hurl⟩ := h3 a ha
            exact ⟨⟨c', List.mem_cons_of_mem _ hc', hac'⟩, hurl⟩
        · obtain ⟨extra, h1, h2, h3⟩ := ih (i + 1) (db ++ [mkArticle src c]) (n + 1)
          refine ⟨mkArticle src c :: extra, ?_, ?_, ?_⟩
          · rw [show saveLoop src fails (c :: cs) i db n
                  = saveLoop src fails cs (i + 1) (getOrCreate src db c) (n + 1) by
                simp [saveLoop, hf]]
            rw [show getOrCreate src db c = db ++ [mkArticle src c] by
                simp [getOrCreate, hu]]
            rw [h1, List.append_assoc]
            rfl
          · simpa using Nat.succ_le_succ h2
          · intro a ha
            rcases List.mem_cons.mp ha with rfl | ha'
            · refine ⟨⟨c, List.mem_cons_self _ _, rfl⟩, ?_⟩
              simpa [mkArticle] using (Bool.not_eq_true _).mp hu
            · obtain ⟨⟨c', hc', hac'⟩, hurl⟩ := h3 a ha'
              refine ⟨⟨c', List.mem_cons_of_mem _ hc', hac'⟩, ?_⟩
              rw [urlIn_append] at hurl
              exact (Bool.or_eq_false_iff.mp hurl).1

/-- After a save loop without failures, every processed candidate's URL is
present in the table. -/
lemma saveLoop_covers (src : Source) :
    ∀ (cs : List Candidate) (i : Nat) (db : List Article) (n : Nat),
    ∀ c ∈ cs, urlIn (saveLoop src (fun _ => false) cs i db n).1 c.url = true := by
  intro cs
  induction cs with
  | nil => intro i db n c hc; cases hc
  | cons c cs ih =>
      intro i db n d hd
      have hstep : saveLoop src (fun _ => false) (c :: cs) i db n
          = saveLoop src (fun _ => false) cs (i + 1) (getOrCreate src db c) (n + 1) := by
        simp [saveLoop]
      rcases List.mem_cons.mp hd with rfl | hd'
      · have hin : urlIn (getOrCreate src db d) d.url = true := by
          by_cases hu : urlIn db d.url
          · simpa [getOrCreate, hu] using hu
          · have hg : getOrCreate src db d = db ++ [mkArticle src d] := by
              simp [getOrCreate, hu]
            rw [hg, urlIn_append]
            have : urlIn [mkArticle src d] d.url = true := by
              simp [urlIn, mkArticle]
            simp [this]
        obtain ⟨extra, h1, -, -⟩ :=
          saveLoop_spec src (fun _ => false) cs (i + 1) (getOrCreate src db d) (n + 1)
        rw [hstep, h1, urlIn_append, hin]
        rfl
      · rw [hstep]
        exact ih (i + 1) (getOrCreate src db c) (n + 1) d hd'

/-- Updating the rows selected by a key and searching by the same key: the
found row is the updated image of the originally found row, provided the
update preserves the key. -/
lemma find?_map_if {α : Type} (key : α → Nat) (upd : α → α)
    (hk : ∀ x, key (upd x) = key x) (k : Nat) :
    ∀ (l : List α) (a0 : α), l.find? (fun x => key x == k) = some a0 →
      (l.map (fun x => if key x == k then upd x else x)).find? (fun x => key x == k)
        = some (upd a0) := by
  intro l
  induction l with
  | nil => intro a0 h; simp [List.find?] at h
  | cons y ys ih =>
      intro a0 h
      by_cases hy : (key y == k) = true
      · rw [@List.find?_cons_of_pos _ (fun x => key x == k) y ys hy] at h
        injection h with h
        subst h
        simp only [List.map_cons, if_pos hy]
        exact @List.find?_cons_of_pos _ (fun x => key x == k) (upd y) _
          (by simp only [hk]; exact hy)
      · rw [@List.find?_cons_of_neg _ (fun x => key x == k) y ys (by simpa using hy)] at h
        simp only [List.map_cons, if_neg hy]
        rw [@List.find?_cons_of_neg _ (fun x => key x == k) y _ (by simpa using hy)]
        exact ih a0 h

/-- Unfolding of a successful-fetch run: filter against the persisted URLs,
truncate to 5, run the save loop, log success with the save counter. -/
lemma collect_ok_eq (src : Source) (cands : List Candidate) (fails : Nat → Bool)
    (db : List Article) (now : Int) :
    collectFromSource src (.ok cands) fails db now
      = ⟨(saveLoop src fails ((cands.filter (fun a => !(urlIn db a.url))).take 5) 0 db 0).1,
         [⟨src.id, "success",
           (saveLoop src fails ((cands.filter (fun a => !(urlIn db a.url))).take 5) 0 db 0).2,
           ""⟩],
         some now⟩ := by
  simp only [collectFromSource]
  rw [filterNew_eq]

/-- A second run over a table that already contains every candidate URL
persists nothing and logs success with count 0. -/
lemma secondRunZero (src : Source) (cands : List Candidate) (db2 : List Article)
    (n2 : Int) (hcov : ∀ c ∈ cands, urlIn db2 c.url = true) :
    (collectFromSource src (.ok cands) (fun _ => false) db2 n2).db = db2 ∧
    (collectFromSource src (.ok cands) (fun _ => false) db2 n2).logs
      = [⟨src.id, "success", 0, ""⟩] := by
  have hempty : cands.filter (fun a => !(urlIn db2 a.url)) = [] := by
    apply List.filter_eq_nil_iff.mpr
    intro a ha
    simp [hcov a ha]
  constructor
  · rw [collect_ok_eq, hempty]
    rfl
  · rw [collect_ok_eq, hempty]
    rfl

/-! ## Claim theorems -/

/-- C5 (amended): the due filter of `collect_all_active_sources` selects a
source iff forceCollect is true, or lastFetched is null, or
now - lastFetched >= fetchInterval — with interval 3600 a source fetched
3601 seconds ago is due and one fetched 3599 seconds ago is not; the
`scheduled_collection` filter, however, omits the forceCollect disjunct and
equals the same predicate with forceCollect treated as false. -/
theorem claimC5_due_filters :
    (∀ (now : Int) (s : Source), dueOrchestrator now s = dueSpec now s) ∧
    (∀ (now : Int) (s : Source),
       dueScheduled now s = dueSpec now { s with forceCollect := false }) ∧
    dueOrchestrator 1000000
      ⟨1, "u", "rss", "dev", true, 3600, some (1000000 - 3601), false⟩ = true ∧
    dueOrchestrator 1000000
      ⟨1, "u", "rss", "dev", true, 3600, some (1000000 - 3599), false⟩ = false := by
  refine ⟨?_, ?_, by decide, by decide⟩
  · intro now s
    cases h : s.lastFetched with
    | none => simp [dueOrchestrator, dueSpec, h]
    | some lf =>
        simp only [dueOrchestrator, dueSpec, h]
        have : decide (lf ≤ now - s.fetchInterval)
            = decide (now - lf ≥ s.fetchInterval) := by
          rw [decide_eq_decide]; omega
        rw [this]
  · intro now s
    cases h : s.lastFetched with
    | none => simp [dueScheduled, dueSpec, h]
    | some lf => simp [dueScheduled, dueSpec, h]

/-- C5 counterexample: the claim's iff fails on the `scheduled_collection`
filter — a source with forceCollect set, interval 3600 and a fetch 100
seconds ago satisfies the claim's right-hand side but is not selected. -/
theorem claimC5_counterexample :
    dueScheduled 1000000 ⟨1, "u", "rss", "dev", true, 3600, some 999900, true⟩
      = false ∧
    (⟨1, "u", "rss", "dev", true, 3600, some 999900, true⟩ : Source).forceCollect
      = true ∧
    dueSpec 1000000 ⟨1, "u", "rss", "dev", true, 3600, some 999900, true⟩
      = true := by
  exact ⟨by decide, rfl, by decide⟩

/-- C1 (amended): a run whose fetch raises with text `e` produces exactly
one FetchLog row, with status "error", articles_count 0 and error message
`e` (non-empty whenever `e` is), persists nothing — and the source's
last_fetched is NOT updated, because its update sits inside the try block
after the fetch. -/
theorem claimC1_error_run (src : Source) (e : String) (fails : Nat → Bool)
    (db : List Article) (now : Int) (he : e ≠ "") :
    ∃ l, (collectFromSource src (.error e) fails db now).logs = [l] ∧
      l.status = "error" ∧ l.articlesCount = 0 ∧ l.errorMessage = e ∧
      l.errorMessage ≠ "" ∧
      (collectFromSource src (.error e) fails db now).db = db ∧
      (collectFromSource src (.error e) fails db now).sourceLastFetched
        = src.lastFetched :=
  ⟨⟨src.id, "error", 0, e⟩, rfl, rfl, rfl, rfl, he, rfl, rfl⟩

/-- Witness for claimC1_error_run at a concrete erroring run. -/
theorem claimC1_error_run_witness :
    ("boom" : String) ≠ "" ∧
    ∃ l, (collectFromSource ⟨7, "u", "rss", "dev", true, 3600, some 5, false⟩
        (.error "boom") (fun _ => false) [] 1000).logs = [l] ∧
      l.status = "error" ∧ l.articlesCount = 0 ∧ l.errorMessage = "boom" ∧
      l.errorMessage ≠ "" ∧
      (collectFromSource ⟨7, "u", "rss", "dev", true, 3600, some 5, false⟩
        (.error "boom") (fun _ => false) [] 1000).db = [] ∧
      (collectFromSource ⟨7, "u", "rss", "dev", true, 3600, some 5, false⟩
        (.error "boom") (fun _ => false) [] 1000).sourceLastFetched
        = (⟨7, "u", "rss", "dev", true, 3600, some 5, false⟩ : Source).lastFetched :=
  ⟨by decide,
   claimC1_error_run ⟨7, "u", "rss", "dev", true, 3600, some 5, false⟩ "boom"
     (fun _ => false) [] 1000 (by decide)⟩

/-- C1 counterexample: for the erroring run with now = 1000, the source's
last_fetched stays at its old value `some 5` and is not set to the current
time, contradicting the claim that an erroring source still advances its
cadence. -/
theorem claimC1_counterexample :
    (collectFromSource ⟨7, "u", "rss", "dev", true, 3600, some 5, false⟩
        (.error "boom") (fun _ => false) [] 1000).sourceLastFetched = some 5 ∧
    ¬ (collectFromSource ⟨7, "u", "rss", "dev", true, 3600, some 5, false⟩
        (.error "boom") (fun _ => false) [] 1000).sourceLastFetched = some 1000 :=
  ⟨rfl, by decide⟩

/-- C8 (confirmed): a transport/parse exception inside `RSSFetcher.fetch`
propagates to the caller unchanged (the except block re-raises), and
`collect_from_source` converts it into the run's single FetchLog row with
status "error" and the exception text, persisting nothing. -/
theorem claimC8_fetch_error_propagates (src : Source) (e : String)
    (fails : Nat → Bool) (db : List Article) (now : Int) :
    rssFetch (.error e) = .error e ∧
    (collectFromSource src (rssFetch (.error e)) fails db now).logs
      = [⟨src.id, "error", 0, e⟩] ∧
    (collectFromSource src (rssFetch (.error e)) fails db now).db = db :=
  ⟨rfl, rfl, rfl⟩

/-- C10 (confirmed): every `collect_from_source` run writes exactly one
FetchLog whose status is "success" or "error" and never "partial"; an
erroring fetch gives the error row, a successful fetch gives the success
row whatever the per-article save failures — and, concretely, when saving
the first of two fresh candidates raises, the loop continues, the second is
persisted, and the run is logged "success" with count 1. -/
theorem claimC10_run_status :
    (∀ (src : Source) (fails : Nat → Bool) (db : List Article) (now : Int)
       (e : String),
       (collectFromSource src (.error e) fails db now).logs
         = [⟨src.id, "error", 0, e⟩]) ∧
    (∀ (src : Source) (fails : Nat → Bool) (db : List Article) (now : Int)
       (cs : List Candidate),
       ∃ n, (collectFromSource src (.ok cs) fails db now).logs
         = [⟨src.id, "success", n, ""⟩]) ∧
    (∀ (src : Source) (fails : Nat → Bool) (db : List Article) (now : Int)
       (fetched : Except String (List Candidate)),
       ∃ l, (collectFromSource src fetched fails db now).logs = [l] ∧
         (l.status = "success" ∨ l.status = "error") ∧ l.status ≠ "partial") ∧
    ((collectFromSource ⟨1, "u", "rss", "dev", true, 3600, none, false⟩
        (.ok [⟨"t1", "a", 0, ""⟩, ⟨"t2", "b", 0, ""⟩]) (fun i => i == 0) [] 9).db
       = [⟨"t2", "b", 1, 0, "", "", "", false, "", ""⟩] ∧
     (collectFromSource ⟨1, "u", "rss", "dev", true, 3600, none, false⟩
        (.ok [⟨"t1", "a", 0, ""⟩, ⟨"t2", "b", 0, ""⟩]) (fun i => i == 0) [] 9).logs
       = [⟨1, "success", 1, ""⟩]) := by
  refine ⟨fun src fails db now e => rfl, fun src fails db now cs => ⟨_, rfl⟩,
    ?_, by decide, by decide⟩
  intro src fails db now fetched
  cases fetched with
  | error e =>
      exact ⟨⟨src.id, "error", 0, e⟩, rfl, Or.inr rfl,
        (by decide : ("error" : String) ≠ "partial")⟩
  | ok cs =>
      exact ⟨⟨src.id, "success", _, ""⟩, rfl, Or.inl rfl,
        (by decide : ("success" : String) ≠ "partial")⟩

/-- C2 (code bug): with active teams dev and ba, three unenriched articles
(dev published at 1, dev at 2, ba at 3) and the round-robin config
enabled with types ["dev","ba"], two consecutive `process_openrouter_job`
cycles both dispatch to "dev" while a ba article is still waiting — and the
cycle dispatches to "dev" even when the stored cursor already reads "dev".
The code selects the team of the globally oldest unenriched article and
never reads round_robin_types or last_type_sent, so no rotation happens. -/
theorem claimC2_no_rotation :
    (processOpenrouterJob (some ⟨true, ["dev", "ba"], ""⟩)
        [⟨1, 1, false, "dev"⟩, ⟨2, 2, false, "dev"⟩, ⟨3, 3, false, "ba"⟩]).2.2
      = some "dev" ∧
    (processOpenrouterJob
        (processOpenrouterJob (some ⟨true, ["dev", "ba"], ""⟩)
          [⟨1, 1, false, "dev"⟩, ⟨2, 2, false, "dev"⟩, ⟨3, 3, false, "ba"⟩]).1
        (processOpenrouterJob (some ⟨true, ["dev", "ba"], ""⟩)
          [⟨1, 1, false, "dev"⟩, ⟨2, 2, false, "dev"⟩, ⟨3, 3, false, "ba"⟩]).2.1).2.2
      = some "dev" ∧
    (processOpenrouterJob (some ⟨true, ["dev", "ba"], "dev"⟩)
        [⟨1, 1, false, "dev"⟩, ⟨2, 2, false, "dev"⟩, ⟨3, 3, false, "ba"⟩]).2.2
      = some "dev" ∧
    ((processOpenrouterJob
        (processOpenrouterJob (some ⟨true, ["dev", "ba"], ""⟩)
          [⟨1, 1, false, "dev"⟩, ⟨2, 2, false, "dev"⟩, ⟨3, 3, false, "ba"⟩]).1
        (processOpenrouterJob (some ⟨true, ["dev", "ba"], ""⟩)
          [⟨1, 1, false, "dev"⟩, ⟨2, 2, false, "dev"⟩, ⟨3, 3, false, "ba"⟩]).2.1).2.1.any
      (fun a => !a.isAiProcessed && a.teamCode == "ba")) = true := by
  decide

/-- C9 (confirmed): the enrichment persist step is all-or-nothing — either
it reports failure and the two tables are exactly as before, or it reports
success and the article row now has is_ai_processed true with the AI
content and team tag while the JobConfig row carries the new cursor
value. -/
theorem claimC9_persist_atomic (db : DB9) (aid : Nat) (c ty : String) (cid : Nat) :
    ((updateArticleAndConfig db aid c ty cid).1 = false ∧
      (updateArticleAndConfig db aid c ty cid).2 = db) ∨
    ((updateArticleAndConfig db aid c ty cid).1 = true ∧
      (∃ a, ((updateArticleAndConfig db aid c ty cid).2.arts.find?
          (fun x => x.id == aid)) = some a ∧
        a.isAiProcessed = true ∧ a.aiContent = c ∧ a.aiType = ty) ∧
      (∃ g, ((updateArticleAndConfig db aid c ty cid).2.cfgs.find?
          (fun x => x.id == cid)) = some g ∧ g.lastTypeSent = ty)) := by
  unfold updateArticleAndConfig
  cases h1 : db.arts.find? (fun a => a.id == aid) with
  | none => exact Or.inl ⟨rfl, rfl⟩
  | some a0 =>
      cases h2 : db.cfgs.find? (fun g => g.id == cid) with
      | none => exact Or.inl ⟨rfl, rfl⟩
      | some g0 =>
          refine Or.inr ⟨rfl, ?_, ?_⟩
          · exact ⟨_, find?_map_if (fun a : Art9 => a.id)
              (fun a => { a with aiContent := c, isAiProcessed := true, aiType := ty })
              (fun _ => rfl) aid db.arts a0 h1, rfl, rfl, rfl⟩
          · exact ⟨_, find?_map_if (fun g : Cfg9 => g.id)
              (fun g => { g with lastTypeSent := ty })
              (fun _ => rfl) cid db.cfgs g0 h2, rfl⟩

/-- C7 (confirmed): when an API key is configured and the HTTP response
status is not 200, the call writes exactly one AILog row with status
"error", the original content as its result and the exact prompt sent, and
returns the original input text verbatim. -/
theorem claimC7_non200 (env : AIEnv) (content url ty : String)
    (hk : env.apiKey ≠ "") (hs : env.httpStatus ≠ 200) :
    (callOpenrouterAI env content url ty).outcome = .ok content ∧
    ∃ l, (callOpenrouterAI env content url ty).logs = [l] ∧
      l.status = "error" ∧ l.result = content ∧ l.url = url ∧
      l.prompt = userPrompt url content := by
  unfold callOpenrouterAI
  rw [if_neg hk, if_pos hs]
  exact ⟨rfl, _, rfl, rfl, rfl, rfl, rfl⟩

/-- Witness for claimC7_non200 at a concrete 500 response. -/
theorem claimC7_non200_witness :
    (callOpenrouterAI ⟨"sk-or-x", 500, "bad gateway", "", ""⟩
        "orig" "http://a" "dev").outcome = .ok "orig" ∧
    ∃ l, (callOpenrouterAI ⟨"sk-or-x", 500, "bad gateway", "", ""⟩
        "orig" "http://a" "dev").logs = [l] ∧
      l.status = "error" ∧ l.result = "orig" ∧ l.url = "http://a" ∧
      l.prompt = userPrompt "http://a" "orig" :=
  claimC7_non200 ⟨"sk-or-x", 500, "bad gateway", "", ""⟩ "orig" "http://a" "dev"
    (by decide) (by decide)

/-- C3 (amended): provided an API key is configured, `call_openrouter_ai`
never raises — it always returns some text, writes exactly one AILog row
carrying the exact prompt, and on any failure branch the row has status
"error" with the original content as result and the original content is
returned unmodified.  (Without a configured key the function raises before
any AILog is written, refuting the unconditional claim.) -/
theorem claimC3_with_key (env : AIEnv) (content url ty : String)
    (hk : env.apiKey ≠ "") :
    (∃ s, (callOpenrouterAI env content url ty).outcome = .ok s) ∧
    ∃ l, (callOpenrouterAI env content url ty).logs = [l] ∧
      l.url = url ∧ l.prompt = userPrompt url content ∧
      (l.status = "success" ∨
        (l.status = "error" ∧
          (callOpenrouterAI env content url ty).outcome = .ok content ∧
          l.result = content)) := by
  unfold callOpenrouterAI
  rw [if_neg hk]
  by_cases hs : env.httpStatus ≠ 200
  · rw [if_pos hs]
    exact ⟨⟨content, rfl⟩, _, rfl, rfl, rfl, Or.inr ⟨rfl, rfl, rfl⟩⟩
  · rw [if_neg hs]
    by_cases hme : env.aiMessage ≠ ""
    · rw [if_pos hme]
      exact ⟨⟨pyStrip env.aiMessage, rfl⟩, _, rfl, rfl, rfl, Or.inl rfl⟩
    · rw [if_neg hme]
      exact ⟨⟨content, rfl⟩, _, rfl, rfl, rfl, Or.inr ⟨rfl, rfl, rfl⟩⟩

/-- Witness for claimC3_with_key at a concrete successful call. -/
theorem claimC3_with_key_witness :
    (∃ s, (callOpenrouterAI ⟨"sk-or-x", 200, "", "repr", "kq"⟩
        "orig" "http://a" "dev").outcome = .ok s) ∧
    ∃ l, (callOpenrouterAI ⟨"sk-or-x", 200, "", "repr", "kq"⟩
        "orig" "http://a" "dev").logs = [l] ∧
      l.url = "http://a" ∧ l.prompt = userPrompt "http://a" "orig" ∧
      (l.status = "success" ∨
        (l.status = "error" ∧
          (callOpenrouterAI ⟨"sk-or-x", 200, "", "repr", "kq"⟩
            "orig" "http://a" "dev").outcome = .ok "orig" ∧
          l.result = "orig")) :=
  claimC3_with_key ⟨"sk-or-x", 200, "", "repr", "kq"⟩ "orig" "http://a" "dev"
    (by decide)

/-- C3 counterexample: with no API key configured, the call raises (the
raise sits before the try block) and writes no AILog row at all, refuting
the unconditional never-raises / always-logs claim. -/
theorem claimC3_counterexample :
    (callOpenrouterAI ⟨"", 200, "", "", "x"⟩ "orig" "http://a" "dev").logs
      = [] ∧
    (callOpenrouterAI ⟨"", 200, "", "", "x"⟩ "orig" "http://a" "dev").outcome
      = .error "OpenRouter API key not found in configuration" :=
  ⟨rfl, rfl⟩

/-- C6 (confirmed): the extractor's concatenated text is truncated to
exactly 4000 characters when longer (the truncation's length is the minimum
of the raw length and 4000), and a concatenated text shorter than 300
characters makes the whole extraction return the empty result. -/
theorem claimC6_truncation_and_minimum (title meta : List Char)
    (paras : List (List Char)) (ai : List Char → List Char) (thumb : List Char) :
    ((concatText title meta paras).take 4000).length
      = min (concatText title meta paras).length 4000 ∧
    ((concatText title meta paras).length < 300 →
      extractDetail title meta paras ai thumb = ⟨[], []⟩) := by
  constructor
  · rw [List.length_take, Nat.min_comm]
  · intro h
    have htake : (concatText title meta paras).take 4000 = concatText title meta paras :=
      List.take_of_length_le (by omega)
    have hlt : (pythonStripChars ((concatText title meta paras).take 4000)).length < 300 := by
      rw [htake]
      exact lt_of_le_of_lt (length_pythonStripChars_le _) h
    unfold extractDetail
    rw [if_pos hlt]

/-- Witness for claimC6_truncation_and_minimum at a concrete short page. -/
theorem claimC6_truncation_witness :
    (concatText ['h', 'i'] [] []).length < 300 ∧
    extractDetail ['h', 'i'] [] [] (fun x => x) [] = ⟨[], []⟩ :=
  ⟨by decide,
   (claimC6_truncation_and_minimum ['h', 'i'] [] [] (fun x => x) []).2 (by decide)⟩

/-- C4 (amended): a run persists only candidates whose URL is not already
among the persisted Articles, at most 5 of them, each created with the
empty enrichment defaults; and, when the candidate list has at most 5
entries, a second run with the identical candidates persists zero new
articles and logs success with count 0.  (With more than 5 fresh candidate
URLs the cap defers the overflow to the next run, so the unconditional
second-run-zero claim fails — see the counterexample.) -/
theorem claimC4_dedup_idempotence (src : Source) (cands : List Candidate)
    (db : List Article) (fails : Nat → Bool) (n1 n2 : Int) :
    (∃ extra, (collectFromSource src (.ok cands) fails db n1).db = db ++ extra ∧
       extra.length ≤ 5 ∧
       ∀ a ∈ extra, (∃ c, c ∈ cands ∧ a = mkArticle src c) ∧
         urlIn db a.url = false ∧ a.content = "" ∧ a.thumbnail = "" ∧
         a.isAiProcessed = false ∧ a.aiType = "" ∧ a.aiContent = "") ∧
    (cands.length ≤ 5 →
       (collectFromSource src (.ok cands) (fun _ => false)
          ((collectFromSource src (.ok cands) (fun _ => false) db n1).db) n2).db
         = (collectFromSource src (.ok cands) (fun _ => false) db n1).db ∧
       (collectFromSource src (.ok cands) (fun _ => false)
          ((collectFromSource src (.ok cands) (fun _ => false) db n1).db) n2).logs
         = [⟨src.id, "success", 0, ""⟩]) := by
  constructor
  · obtain ⟨extra, h1, h2, h3⟩ :=
      saveLoop_spec src fails ((cands.filter (fun a => !(urlIn db a.url))).take 5) 0 db 0
    refine ⟨extra, ?_, ?_, ?_⟩
    · rw [collect_ok_eq]
      exact h1
    · exact h2.trans (List.length_take_le 5 _)
    · intro a ha
      obtain ⟨⟨c, hc, hac⟩, hurl⟩ := h3 a ha
      have hc' : c ∈ cands :=
        List.filter_subset' cands (List.take_subset 5 _ hc)
      subst hac
      exact ⟨⟨c, hc', rfl⟩, hurl, rfl, rfl, rfl, rfl, rfl⟩
  · intro h5
    have hfl : (cands.filter (fun a => !(urlIn db a.url))).length ≤ 5 :=
      le_trans (List.length_filter_le _ _) h5
    have htk : (cands.filter (fun a => !(urlIn db a.url))).take 5
        = cands.filter (fun a => !(urlIn db a.url)) :=
      List.take_of_length_le hfl
    have hdb1 : (collectFromSource src (.ok cands) (fun _ => false) db n1).db
        = (saveLoop src (fun _ => false)
            (cands.filter (fun a => !(urlIn db a.url))) 0 db 0).1 := by
      rw [collect_ok_eq, htk]
    obtain ⟨extra, hsh, -, -⟩ :=
      saveLoop_spec src (fun _ => false) (cands.filter (fun a => !(urlIn db a.url))) 0 db 0
    have hcover : ∀ c ∈ cands,
        urlIn (collectFromSource src (.ok cands) (fun _ => false) db n1).db c.url
          = true := by
      intro c hc
      rw [hdb1]
      by_cases hcu : urlIn db c.url
      · rw [hsh, urlIn_append, hcu]
        exact Bool.true_or _
      · refine saveLoop_covers src _ 0 db 0 c ?_
        exact List.mem_filter.mpr ⟨hc, by simp [hcu]⟩
    exact secondRunZero src cands
      ((collectFromSource src (.ok cands) (fun _ => false) db n1).db) n2 hcover

/-- Witness for claimC4_dedup_idempotence: two fresh candidates, an empty
table, no save failures — the second run persists nothing. -/
theorem claimC4_dedup_idempotence_witness :
    ([(⟨"t1", "u1", 0, ""⟩ : Candidate), ⟨"t2", "u2", 0, ""⟩].length ≤ 5) ∧
    ((collectFromSource ⟨1, "u", "rss", "dev", true, 3600, none, false⟩
        (.ok [⟨"t1", "u1", 0, ""⟩, ⟨"t2", "u2", 0, ""⟩]) (fun _ => false)
        ((collectFromSource ⟨1, "u", "rss", "dev", true, 3600, none, false⟩
           (.ok [⟨"t1", "u1", 0, ""⟩, ⟨"t2", "u2", 0, ""⟩]) (fun _ => false) [] 1).db) 2).db
       = (collectFromSource ⟨1, "u", "rss", "dev", true, 3600, none, false⟩
           (.ok [⟨"t1", "u1", 0, ""⟩, ⟨"t2", "u2", 0, ""⟩]) (fun _ => false) [] 1).db ∧
     (collectFromSource ⟨1, "u", "rss", "dev", true, 3600, none, false⟩
        (.ok [⟨"t1", "u1", 0, ""⟩, ⟨"t2", "u2", 0, ""⟩]) (fun _ => false)
        ((collectFromSource ⟨1, "u", "rss", "dev", true, 3600, none, false⟩
           (.ok [⟨"t1", "u1", 0, ""⟩, ⟨"t2", "u2", 0, ""⟩]) (fun _ => false) [] 1).db) 2).logs
       = [⟨1, "success", 0, ""⟩]) :=
  ⟨by decide,
   (claimC4_dedup_idempotence ⟨1, "u", "rss", "dev", true, 3600, none, false⟩
      [⟨"t1", "u1", 0, ""⟩, ⟨"t2", "u2", 0, ""⟩] [] (fun _ => false) 1 2).2 (by decide)⟩

/-- C4 counterexample: six fresh candidate URLs against an empty table —
the first run persists only 5 (the cap), so the second run with the
identical candidates persists the sixth and logs articles_count 1, not 0:
the second pass is not idempotent when more than 5 candidates are new. -/
theorem claimC4_counterexample :
    (collectFromSource ⟨1, "u", "rss", "dev", true, 3600, none, false⟩
        (.ok [⟨"t", "u1", 0, ""⟩, ⟨"t", "u2", 0, ""⟩, ⟨"t", "u3", 0, ""⟩,
              ⟨"t", "u4", 0, ""⟩, ⟨"t", "u5", 0, ""⟩, ⟨"t", "u6", 0, ""⟩])
        (fun _ => false) [] 1).db.length = 5 ∧
    (collectFromSource ⟨1, "u", "rss", "dev", true, 3600, none, false⟩
        (.ok [⟨"t", "u1", 0, ""⟩, ⟨"t", "u2", 0, ""⟩, ⟨"t", "u3", 0, ""⟩,
              ⟨"t", "u4", 0, ""⟩, ⟨"t", "u5", 0, ""⟩, ⟨"t", "u6", 0, ""⟩])
        (fun _ => false)
        ((collectFromSource ⟨1, "u", "rss", "dev", true, 3600, none, false⟩
           (.ok [⟨"t", "u1", 0, ""⟩, ⟨"t", "u2", 0, ""⟩, ⟨"t", "u3", 0, ""⟩,
                 ⟨"t", "u4", 0, ""⟩, ⟨"t", "u5", 0, ""⟩, ⟨"t", "u6", 0, ""⟩])
           (fun _ => false) [] 1).db) 2).logs
      = [⟨1, "success", 1, ""⟩] ∧
    (collectFromSource ⟨1, "u", "rss", "dev", true, 3600, none, false⟩
        (.ok [⟨"t", "u1", 0, ""⟩, ⟨"t", "u2", 0, ""⟩, ⟨"t", "u3", 0, ""⟩,
              ⟨"t", "u4", 0, ""⟩, ⟨"t", "u5", 0, ""⟩, ⟨"t", "u6", 0, ""⟩])
        (fun _ => false)
        ((collectFromSource ⟨1, "u", "rss", "dev", true, 3600, none, false⟩
           (.ok [⟨"t", "u1", 0, ""⟩, ⟨"t", "u2", 0, ""⟩, ⟨"t", "u3", 0, ""⟩,
                 ⟨"t", "u4", 0, ""⟩, ⟨"t", "u5", 0, ""⟩, ⟨"t", "u6", 0, ""⟩])
           (fun _ => false) [] 1).db) 2).db.length = 6 := by
  refine ⟨by decide, by decide, by decide⟩

end ISDNews
